import Mathlib

/-!
Verification of the MexcClient exchange-client library (`MexcClient/client.py`)
against its natural-language specification.

The client is embedded shallowly: every client method becomes a pure Lean
function from its arguments to a description of the HTTP request it would
issue (or to the client-side error value it returns instead).  Parameter
mappings are association lists in insertion order, mirroring Python dict
semantics; `urllib.parse.urlencode` and the HMAC-SHA256 signer are modelled
at the byte level with `Nat` bytes.
-/

/-! ## Bytes and UTF-8 -/

/-- UTF-8 encoding of a single Unicode code point, as a list of byte values. -/
def utf8EncodeChar (c : Nat) : List Nat :=
  if c < 0x80 then [c]
  else if c < 0x800 then [0xC0 + c / 64, 0x80 + c % 64]
  else if c < 0x10000 then [0xE0 + c / 4096, 0x80 + (c / 64) % 64, 0x80 + c % 64]
  else [0xF0 + c / 262144, 0x80 + (c / 4096) % 64, 0x80 + (c / 64) % 64, 0x80 + c % 64]

/-- The UTF-8 bytes of a string, modelling Python's `str.encode()`. -/
def strToBytes (s : String) : List Nat :=
  s.data.foldr (fun c acc => utf8EncodeChar c.toNat ++ acc) []

/-! ## URL form-encoding (`urllib.parse.urlencode` with `quote_plus`) -/

/-- Bytes left unescaped by `urllib.parse.quote_plus`: ASCII alphanumerics
and `_`, `.`, `-`, `~`. -/
def isUrlSafeByte (b : Nat) : Bool :=
  (48 ≤ b && b ≤ 57) || (65 ≤ b && b ≤ 90) || (97 ≤ b && b ≤ 122) ||
  b == 95 || b == 46 || b == 45 || b == 126

/-- Uppercase hexadecimal digit for a nibble, as used in percent-escapes. -/
def hexDigitUpper (n : Nat) : Char :=
  if n < 10 then Char.ofNat (48 + n) else Char.ofNat (55 + n)

/-- Percent-escape a byte sequence the way `quote_plus` does: safe bytes pass
through, a space becomes `+`, everything else becomes `%XX`. -/
def quotePlusBytes : List Nat → List Char
  | [] => []
  | b :: bs =>
    if isUrlSafeByte b then Char.ofNat b :: quotePlusBytes bs
    else if b == 32 then Char.ofNat 43 :: quotePlusBytes bs
    else Char.ofNat 37 :: hexDigitUpper (b / 16 % 16) :: hexDigitUpper (b % 16) :: quotePlusBytes bs

/-- Python's `urllib.parse.quote_plus` on a string. -/
def quote_plus (s : String) : String :=
  String.mk (quotePlusBytes (strToBytes s))

/-- Python's `urllib.parse.urlencode`: each pair rendered as
`quote_plus key = quote_plus value`, pairs joined with `&` in list order. -/
def urlencode (params : List (String × String)) : String :=
  String.intercalate "&" (params.map (fun p => quote_plus p.1 ++ "=" ++ quote_plus p.2))

/-! ## Python dict as an insertion-ordered association list -/

/-- Python's `s.replace(",", ".")` for the one-character pattern the client
uses: every comma character is substituted by a period.  (Defined by a
structural character map so it evaluates in the kernel; for a
single-character pattern and replacement this is exactly `str.replace`.) -/
def replaceCommaWithDot (s : String) : String :=
  String.mk (s.data.map (fun c => if c = Char.ofNat 44 then Char.ofNat 46 else c))

/-- Python dict assignment `d[k] = v` on an insertion-ordered association
list: an existing key keeps its position and gets the new value, a fresh key
is appended at the end. -/
def dictInsert (l : List (String × String)) (k v : String) : List (String × String) :=
  match l with
  | [] => [(k, v)]
  | p :: t => if p.1 == k then (k, v) :: t else p :: dictInsert t k v

/-- Whether a key is present in the mapping (Python's `k in d`). -/
def hasKey (l : List (String × String)) (k : String) : Bool :=
  l.any (fun p => p.1 == k)

/-! ## SHA-256 (needed by the signer)

Modelled from the spec: the repository's `MexcClient/Utils/Signature.py`
(imported by `client.py` as `generate_signature`) is not under `src/`; the
spec states the signer computes a hex-encoded HMAC-SHA256 digest over the
message bytes keyed by the secret bytes.  SHA-256 is the FIPS 180-4
algorithm over `Nat` bytes with arithmetic reduced modulo `2 ^ 32`. -/

/-- Truncate to a 32-bit word. -/
def w32 (n : Nat) : Nat := n % 4294967296

/-- Right rotation of a 32-bit word by `n` bits. -/
def rotr32 (n x : Nat) : Nat := w32 ((x >>> n) ||| (x <<< (32 - n)))

/-- The SHA-256 choice function. -/
def shaCh (e f g : Nat) : Nat := (e &&& f) ^^^ ((e ^^^ 4294967295) &&& g)

/-- The SHA-256 majority function. -/
def shaMaj (a b c : Nat) : Nat := (a &&& b) ^^^ (a &&& c) ^^^ (b &&& c)

/-- Big sigma-0. -/
def bsig0 (x : Nat) : Nat := rotr32 2 x ^^^ rotr32 13 x ^^^ rotr32 22 x

/-- Big sigma-1. -/
def bsig1 (x : Nat) : Nat := rotr32 6 x ^^^ rotr32 11 x ^^^ rotr32 25 x

/-- Small sigma-0. -/
def ssig0 (x : Nat) : Nat := rotr32 7 x ^^^ rotr32 18 x ^^^ (x >>> 3)

/-- Small sigma-1. -/
def ssig1 (x : Nat) : Nat := rotr32 17 x ^^^ rotr32 19 x ^^^ (x >>> 10)

/-- The 64 SHA-256 round constants. -/
def sha256K : List Nat :=
  [1116352408, 1899447441, 3049323471, 3921009573, 961987163, 1508970993,
   2453635748, 2870763221, 3624381080, 310598401, 607225278, 1426881987,
   1925078388, 2162078206, 2614888103, 3248222580, 3835390401, 4022224774,
   264347078, 604807628, 770255983, 1249150122, 1555081692, 1996064986,
   2554220882, 2821834349, 2952996808, 3210313671, 3336571891, 3584528711,
   113926993, 338241895, 666307205, 773529912, 1294757372, 1396182291,
   1695183700, 1986661051, 2177026350, 2456956037, 2730485921, 2820302411,
   3259730800, 3345764771, 3516065817, 3600352804, 4094571909, 275423344,
   430227734, 506948616, 659060556, 883997877, 958139571, 1322822218,
   1537002063, 1747873779, 1955562222, 2024104815, 2227730452, 2361852424,
   2428436474, 2756734187, 3204031479, 3329325298]

/-- The SHA-256 working state: eight 32-bit words. -/
structure Sha256State where
  a : Nat
  b : Nat
  c : Nat
  d : Nat
  e : Nat
  f : Nat
  g : Nat
  h : Nat

/-- The SHA-256 initial hash value. -/
def sha256IV : Sha256State :=
  ⟨1779033703, 3144134277, 1013904242, 2773480762,
   1359893119, 2600822924, 528734635, 1541459225⟩

/-- Group bytes into 32-bit big-endian words. -/
def bytesToWords : List Nat → List Nat
  | b0 :: b1 :: b2 :: b3 :: rest =>
    (b0 * 16777216 + b1 * 65536 + b2 * 256 + b3) :: bytesToWords rest
  | _ => []

/-- Extend the 16 block words to the 64-entry message schedule. -/
def sha256Extend (ws : Array Nat) : Array Nat :=
  (List.range 48).foldl
    (fun w _ =>
      let n := w.size
      w.push (w32 (ssig1 (w.getD (n - 2) 0) + w.getD (n - 7) 0 +
                   ssig0 (w.getD (n - 15) 0) + w.getD (n - 16) 0)))
    ws

/-- One SHA-256 round, consuming a round constant paired with a schedule word. -/
def sha256Round (s : Sha256State) (kw : Nat × Nat) : Sha256State :=
  let t1 := w32 (s.h + bsig1 s.e + shaCh s.e s.f s.g + kw.1 + kw.2)
  let t2 := w32 (bsig0 s.a + shaMaj s.a s.b s.c)
  ⟨w32 (t1 + t2), s.a, s.b, s.c, w32 (s.d + t1), s.e, s.f, s.g⟩

/-- Compress one 64-byte block into the running state. -/
def sha256Compress (st : Sha256State) (block : List Nat) : Sha256State :=
  let ws := (sha256Extend (bytesToWords block).toArray).toList
  let s := (sha256K.zip ws).foldl sha256Round st
  ⟨w32 (st.a + s.a), w32 (st.b + s.b), w32 (st.c + s.c), w32 (st.d + s.d),
   w32 (st.e + s.e), w32 (st.f + s.f), w32 (st.g + s.g), w32 (st.h + s.h)⟩

/-- Merkle-Damgard padding: `0x80`, zeros to 56 mod 64, then the bit length
as eight big-endian bytes. -/
def sha256Pad (msg : List Nat) : List Nat :=
  let bitLen := msg.length * 8
  let zeros := (120 - (msg.length + 1) % 64) % 64
  msg ++ [0x80] ++ List.replicate zeros 0 ++
    [(bitLen >>> 56) % 256, (bitLen >>> 48) % 256, (bitLen >>> 40) % 256, (bitLen >>> 32) % 256,
     (bitLen >>> 24) % 256, (bitLen >>> 16) % 256, (bitLen >>> 8) % 256, bitLen % 256]

/-- Split a byte list into 64-byte chunks. -/
def chunks64 (l : List Nat) : List (List Nat) :=
  if h : l = [] then []
  else l.take 64 :: chunks64 (l.drop 64)
termination_by l.length
decreasing_by
  have h1 : 0 < l.length := List.length_pos.mpr h
  simp only [List.length_drop]
  omega

/-- The four big-endian bytes of a 32-bit word. -/
def wordBytes (w : Nat) : List Nat :=
  [(w >>> 24) % 256, (w >>> 16) % 256, (w >>> 8) % 256, w % 256]

/-- The 32 digest bytes of a final state. -/
def stateBytes (st : Sha256State) : List Nat :=
  wordBytes st.a ++ wordBytes st.b ++ wordBytes st.c ++ wordBytes st.d ++
  wordBytes st.e ++ wordBytes st.f ++ wordBytes st.g ++ wordBytes st.h

/-- SHA-256 of a byte list, as 32 digest bytes. -/
def sha256 (msg : List Nat) : List Nat :=
  stateBytes ((chunks64 (sha256Pad msg)).foldl sha256Compress sha256IV)

/-! ## HMAC-SHA256 and the signer -/

/-- HMAC key preparation: a key longer than the 64-byte block is hashed
first, then the key is zero-padded on the right to exactly 64 bytes. -/
def hmacPadKey (key : List Nat) : List Nat :=
  let k0 := if key.length > 64 then sha256 key else key
  k0 ++ List.replicate (64 - k0.length) 0

/-- The HMAC core over an already block-sized key. -/
def hmacCore (k : List Nat) (msg : List Nat) : List Nat :=
  sha256 ((k.map (fun b => b ^^^ 0x5c)) ++ sha256 ((k.map (fun b => b ^^^ 0x36)) ++ msg))

/-- HMAC-SHA256 digest bytes of a message under a key. -/
def hmacSha256 (key msg : List Nat) : List Nat :=
  hmacCore (hmacPadKey key) msg

/-- Lowercase hexadecimal digit for a nibble, as in Python's `hexdigest()`. -/
def hexDigitLower (n : Nat) : Char :=
  if n < 10 then Char.ofNat (48 + n) else Char.ofNat (87 + n)

/-- Two lowercase hex characters per byte. -/
def bytesToHexChars : List Nat → List Char
  | [] => []
  | b :: bs => hexDigitLower (b / 16 % 16) :: hexDigitLower (b % 16) :: bytesToHexChars bs

/-- Modelled from the spec: the signer `generate_signature` lives in
`MexcClient/Utils/Signature.py`, which is not under `src/`; per the spec it
returns the hex-encoded HMAC-SHA256 digest of the message bytes keyed by the
secret bytes. -/
def generate_signature (secret params : List Nat) : String :=
  String.mk (bytesToHexChars (hmacSha256 secret params))

/-! ## The client data model

`client.py` holds an API key, an API secret, and the fixed base URL.  Each
method is embedded as a pure function from its arguments to the HTTP request
it would hand to the transport (`requests`), or to its client-side result.
Optional Python arguments defaulting to `None` become `Option` arguments;
Python truthiness (`if arg:`) is modelled explicitly, so `None`, `""` and
`0` all count as absent. -/

/-- Modelled from the spec: `MexcClient.Enums` is not under `src/`; the spec
describes the order-side enum as a closed set whose members carry the exact
wire string, and the client only ever reads `side.value`. -/
structure EnumOrderSide where
  value : String

/-- Modelled from the spec: the order-type enum, carrying its wire string;
the client only ever reads `_type.value`. -/
structure EnumOrderType where
  value : String

/-- Modelled from the spec: the kline-interval enum, carrying its wire
string; the client only ever reads `interval.value`. -/
structure EnumKlineInterval where
  value : String

/-- HTTP verb of a request. -/
inductive Method where
  | GET
  | POST
  | DELETE
deriving DecidableEq

/-- An unsigned request as handed to the transport. -/
structure HttpRequest where
  method : Method
  path : String
  params : List (String × String)

/-- A signed request as handed to the transport: `params` is the transmitted
parameter mapping (with the signature already attached), `signedString` the
url-encoded string the signature was computed over, and `signature` the
attached hex digest. -/
structure SignedRequest where
  method : Method
  path : String
  headers : List (String × String)
  params : List (String × String)
  signedString : String
  signature : String

/-- The client instance: immutable credentials. -/
structure MexcClient where
  api_key : String
  api_secret : String

/-- The fixed base endpoint (`self.__base_url`). -/
def MexcClient.base_url (_ : MexcClient) : String := "https://api.mexc.com"

/-- `order_book_of_symbol`: GET `/api/v3/depth` with `symbol` and `limit`,
the limit defaulting to 100 and passed through unmodified. -/
def MexcClient.order_book_of_symbol (_ : MexcClient) (symbol : String)
    (limit : optParam Int 100) : HttpRequest :=
  { method := Method.GET, path := "/api/v3/depth",
    params := [("symbol", symbol), ("limit", toString limit)] }

/-- `recent_trades_list`: GET `/api/v3/trades`. -/
def MexcClient.recent_trades_list (_ : MexcClient) (symbol : String)
    (limit : optParam Int 500) : HttpRequest :=
  { method := Method.GET, path := "/api/v3/trades",
    params := [("symbol", symbol), ("limit", toString limit)] }

/-- `old_trade_lookup`: GET `/api/v3/historicalTrades`. -/
def MexcClient.old_trade_lookup (_ : MexcClient) (symbol : String)
    (limit : optParam Int 500) : HttpRequest :=
  { method := Method.GET, path := "/api/v3/historicalTrades",
    params := [("symbol", symbol), ("limit", toString limit)] }

/-- `kline_data`: builds `symbol`, `limit`, `interval` parameters, attaches
`startTime`/`endTime` only when positive, and issues the GET against
`/api/v3/historicalTrades` (the path `old_trade_lookup` also uses). -/
def MexcClient.kline_data (_ : MexcClient) (symbol : String)
    (interval : EnumKlineInterval) (start_time : optParam Int 0)
    (end_time : optParam Int 0) (limit : optParam Int 500) : HttpRequest :=
  let params := [("symbol", symbol), ("limit", toString limit),
                 ("interval", interval.value)]
  let params := if start_time > 0 then dictInsert params "startTime" (toString start_time) else params
  let params := if end_time > 0 then dictInsert params "endTime" (toString end_time) else params
  { method := Method.GET, path := "/api/v3/historicalTrades", params := params }

/-- `current_average_price`: GET `/api/v3/avgPrice`. -/
def MexcClient.current_average_price (_ : MexcClient) (symbol : String) : HttpRequest :=
  { method := Method.GET, path := "/api/v3/avgPrice", params := [("symbol", symbol)] }

/-- Python's `if arg: params[k] = f(arg)` for an optional string argument:
`None` and the empty string are falsy, so nothing is attached for them. -/
def attachTruthyStr (l : List (String × String)) (k : String) (f : String → String) :
    Option String → List (String × String)
  | some s => if s.isEmpty then l else dictInsert l k (f s)
  | none => l

/-- Python's `if arg: params[k] = arg` for an optional integer argument:
`None` and `0` are falsy, so nothing is attached for them. -/
def attachTruthyInt (l : List (String × String)) (k : String) :
    Option Int → List (String × String)
  | some i => if i == 0 then l else dictInsert l k (toString i)
  | none => l

/-- The parameter mapping built by `_create` before signing (lines 212-233):
the six base parameters in insertion order, then each optional argument
attached under Python truthiness (`if arg:`), with the price comma
normalised (`price.replace(",", ".")`) and a truthy `recv_window`
overwriting the default in place. -/
def createParams (symbol : String) (side : EnumOrderSide) (_type : EnumOrderType)
    (timestamp : Int) (quantity : String) (quote_order_quantity : Option String)
    (price : Option String) (new_client_order_id : Option String)
    (recv_window : Option Int) : List (String × String) :=
  let params : List (String × String) :=
    [("symbol", symbol), ("side", side.value), ("type", _type.value),
     ("quantity", quantity), ("recvWindow", "60000"),
     ("timestamp", toString (timestamp * 1000))]
  let params := attachTruthyStr params "quoteOrderQty" id quote_order_quantity
  let params := attachTruthyStr params "price" replaceCommaWithDot price
  let params := attachTruthyStr params "newClientOrderId" id new_client_order_id
  attachTruthyInt params "recvWindow" recv_window

/-- `_create`: build the parameter mapping, url-encode it, sign the encoded
string with the secret, attach the signature to the mapping, and POST the
mapping as the body. -/
def MexcClient._create (client : MexcClient) (url : String) (symbol : String)
    (side : EnumOrderSide) (_type : EnumOrderType) (timestamp : Int)
    (quantity : String) (quote_order_quantity : Option String)
    (price : Option String) (new_client_order_id : Option String)
    (recv_window : Option Int) : SignedRequest :=
  let params := createParams symbol side _type timestamp quantity
    quote_order_quantity price new_client_order_id recv_window
  let headers := [("X-MEXC-APIKEY", client.api_key), ("Content-Type", "application/json")]
  let str_params := urlencode params
  let signature := generate_signature (strToBytes client.api_secret) (strToBytes str_params)
  let params := dictInsert params "signature" signature
  { method := Method.POST, path := url, headers := headers, params := params,
    signedString := str_params, signature := signature }

/-- `create_order_test`: `_create` against `/api/v3/order/test`. -/
def MexcClient.create_order_test (client : MexcClient) (symbol : String)
    (side : EnumOrderSide) (_type : EnumOrderType) (timestamp : Int)
    (quantity : String) (quote_order_quantity : optParam (Option String) none)
    (price : optParam (Option String) none)
    (new_client_order_id : optParam (Option String) none)
    (recv_window : optParam (Option Int) none) : SignedRequest :=
  client._create "/api/v3/order/test" symbol side _type timestamp quantity
    quote_order_quantity price new_client_order_id recv_window

/-- `create_new_order`: `_create` against `/api/v3/order`. -/
def MexcClient.create_new_order (client : MexcClient) (symbol : String)
    (side : EnumOrderSide) (_type : EnumOrderType) (timestamp : Int)
    (quantity : String) (quote_order_quantity : optParam (Option String) none)
    (price : optParam (Option String) none)
    (new_client_order_id : optParam (Option String) none)
    (recv_window : optParam (Option Int) none) : SignedRequest :=
  client._create "/api/v3/order" symbol side _type timestamp quantity
    quote_order_quantity price new_client_order_id recv_window

/-- `cancel_order`: sign `timestamp`, `symbol`, `orderId` and DELETE
`/api/v3/order`. -/
def MexcClient.cancel_order (client : MexcClient) (symbol : String)
    (order_id : String) (timestamp : Int) : SignedRequest :=
  let headers := [("X-MEXC-APIKEY", client.api_key), ("Content-Type", "application/json")]
  let body : List (String × String) :=
    [("timestamp", toString (timestamp * 1000)), ("symbol", symbol), ("orderId", order_id)]
  let str_params := urlencode body
  let signature := generate_signature (strToBytes client.api_secret) (strToBytes str_params)
  let body := dictInsert body "signature" signature
  { method := Method.DELETE, path := "/api/v3/order", headers := headers,
    params := body, signedString := str_params, signature := signature }

/-- Result of `cancel_all_open_orders_on_a_symbol`: either the client-side
error list returned without any signing or network call, or the signed
DELETE request handed to the transport. -/
inductive CancelAllResult where
  | clientError (messages : List String)
  | sent (r : SignedRequest)

/-- `cancel_all_open_orders_on_a_symbol` (lines 281-298): more than 5
symbols short-circuits with the descriptive error list; otherwise the
comma-joined symbols are signed together with the timestamp and the DELETE
against `/api/v3/openOrders` is sent. -/
def MexcClient.cancel_all_open_orders_on_a_symbol (client : MexcClient)
    (symbols : List String) (timestamp : Int) : CancelAllResult :=
  let headers := [("X-MEXC-APIKEY", client.api_key), ("Content-Type", "application/json")]
  let body : List (String × String) := [("timestamp", toString (timestamp * 1000))]
  if symbols.length > 5 then
    CancelAllResult.clientError ["maximum number of symbols exceeded, only 5 are allowed"]
  else
    let body := dictInsert body "symbol" (String.intercalate "," symbols)
    let str_params := urlencode body
    let signature := generate_signature (strToBytes client.api_secret) (strToBytes str_params)
    let body := dictInsert body "signature" signature
    CancelAllResult.sent
      { method := Method.DELETE, path := "/api/v3/openOrders", headers := headers,
        params := body, signedString := str_params, signature := signature }

/-! ## Account endpoints

The account methods interpret the transport's response, so the embedding
takes the response as an argument.  The response body is an association
list of fields; the only field the client reads is `"balances"`. -/

/-- One entry of the account's balance list. -/
structure Balance where
  asset : String
  free : String
  locked : String
deriving DecidableEq

/-- The transport's answer to GET `/api/v3/account`: the success flag
(`response.ok`) and the decoded JSON body, of which only the `balances`
field matters to the client. -/
structure AccountResponse where
  ok : Bool
  fields : List (String × List Balance)

/-- A Python runtime fault that the client code does not catch. -/
inductive PyFault where
  | attributeError
  | typeError
  | indexError
deriving DecidableEq

/-- `_load_account_info` (lines 253-265): returns the decoded body when
`response.ok`, and falls off the function (Python's implicit `None`)
otherwise. -/
def MexcClient._load_account_info (resp : AccountResponse) :
    Option (List (String × List Balance)) :=
  if resp.ok then some resp.fields else none

/-- `load_balances` (lines 244-245): `self._load_account_info().get("balances")`.
When `_load_account_info` returned `None`, the attribute access `.get` on
`None` raises `AttributeError`; otherwise `dict.get` yields the `balances`
field or `None` when the key is absent. -/
def MexcClient.load_balances (resp : AccountResponse) :
    Except PyFault (Option (List Balance)) :=
  match MexcClient._load_account_info resp with
  | none => Except.error PyFault.attributeError
  | some d => Except.ok (d.lookup "balances")

/-- `load_balance_by_symbol` (lines 247-251): filter the balances for the
asset and take element `[0]`.  `filter` over `None` raises `TypeError`;
`[0]` of an empty filter result raises `IndexError`. -/
def MexcClient.load_balance_by_symbol (resp : AccountResponse) (symbol : String) :
    Except PyFault Balance :=
  match MexcClient.load_balances resp with
  | Except.error e => Except.error e
  | Except.ok none => Except.error PyFault.typeError
  | Except.ok (some balances) =>
    match balances.filter (fun i => i.asset == symbol) with
    | [] => Except.error PyFault.indexError
    | b :: _ => Except.ok b

/-! ## Association-list lemmas -/

theorem lookup_dictInsert_self (l : List (String × String)) (k v : String) :
    (dictInsert l k v).lookup k = some v := by
  induction l with
  | nil => simp [dictInsert, List.lookup]
  | cons p t ih =>
    obtain ⟨pk, pv⟩ := p
    by_cases hp : pk = k
    · have hb : (pk == k) = true := beq_iff_eq.mpr hp
      subst hp
      simp [dictInsert, hb, List.lookup]
    · have hb : (pk == k) = false := beq_eq_false_iff_ne.mpr hp
      have hb2 : (k == pk) = false := beq_eq_false_iff_ne.mpr (Ne.symm hp)
      simp [dictInsert, hb, List.lookup, hb2, ih]

theorem lookup_dictInsert_ne (l : List (String × String)) (k v k' : String)
    (h : k' ≠ k) : (dictInsert l k v).lookup k' = l.lookup k' := by
  have hk : (k' == k) = false := beq_eq_false_iff_ne.mpr h
  induction l with
  | nil => simp [dictInsert, List.lookup, hk]
  | cons p t ih =>
    obtain ⟨pk, pv⟩ := p
    by_cases hp : pk = k
    · have hb : (pk == k) = true := beq_iff_eq.mpr hp
      subst hp
      simp [dictInsert, hb, List.lookup, hk]
    · have hb : (pk == k) = false := beq_eq_false_iff_ne.mpr hp
      simp [dictInsert, hb, List.lookup, ih]

theorem hasKey_dictInsert_ne (l : List (String × String)) (k v k' : String)
    (h : k' ≠ k) : hasKey (dictInsert l k v) k' = hasKey l k' := by
  have hk : (k == k') = false := beq_eq_false_iff_ne.mpr (Ne.symm h)
  induction l with
  | nil => simp [dictInsert, hasKey, hk]
  | cons p t ih =>
    obtain ⟨pk, pv⟩ := p
    by_cases hp : pk = k
    · have hb : (pk == k) = true := beq_iff_eq.mpr hp
      subst hp
      simp [dictInsert, hb, hasKey, hk]
    · have hb : (pk == k) = false := beq_eq_false_iff_ne.mpr hp
      simp only [dictInsert, hb, hasKey, List.any_cons] at ih ⊢
      simp [ih]

theorem hasKey_dictInsert_self (l : List (String × String)) (k v : String) :
    hasKey (dictInsert l k v) k = true := by
  induction l with
  | nil => simp [dictInsert, hasKey]
  | cons p t ih =>
    obtain ⟨pk, pv⟩ := p
    by_cases hp : pk = k
    · have hb : (pk == k) = true := beq_iff_eq.mpr hp
      subst hp
      simp [dictInsert, hb, hasKey]
    · have hb : (pk == k) = false := beq_eq_false_iff_ne.mpr hp
      simp only [dictInsert, hb, hasKey, List.any_cons] at ih ⊢
      simp [hb, ih]

theorem dictInsert_fresh (l : List (String × String)) (k v : String)
    (h : hasKey l k = false) : dictInsert l k v = l ++ [(k, v)] := by
  induction l with
  | nil => rfl
  | cons p t ih =>
    obtain ⟨pk, pv⟩ := p
    simp [hasKey] at h
    have hb : (pk == k) = false := beq_eq_false_iff_ne.mpr h.1
    simp [dictInsert, hb, ih (by simpa [hasKey] using h.2)]

/-! ## Facts about the parameter mapping built by `_create` -/

/-- Python truthiness of an optional string argument (`if arg:`). -/
def truthyStr : Option String → Bool
  | some s => !s.isEmpty
  | none => false

/-- Python truthiness of an optional integer argument (`if arg:`). -/
def truthyInt : Option Int → Bool
  | some i => !(i == 0)
  | none => false

theorem createParams_lookup_timestamp (symbol : String) (side : EnumOrderSide)
    (_type : EnumOrderType) (ts : Int) (qty : String) (qoq price ncoid : Option String)
    (rw : Option Int) :
    (createParams symbol side _type ts qty qoq price ncoid rw).lookup "timestamp" =
      some (toString (ts * 1000)) := by
  rcases qoq with _ | q <;> rcases price with _ | p <;> rcases ncoid with _ | n <;>
    rcases rw with _ | w <;>
    simp only [createParams, attachTruthyStr, attachTruthyInt] <;>
    (try split_ifs) <;> rfl

theorem createParams_lookup_recvWindow_default (symbol : String) (side : EnumOrderSide)
    (_type : EnumOrderType) (ts : Int) (qty : String) (qoq price ncoid : Option String)
    (rw : Option Int) (h : truthyInt rw = false) :
    (createParams symbol side _type ts qty qoq price ncoid rw).lookup "recvWindow" =
      some "60000" := by
  rcases rw with _ | w
  · rcases qoq with _ | q <;> rcases price with _ | p <;> rcases ncoid with _ | n <;>
      simp only [createParams, attachTruthyStr, attachTruthyInt] <;>
      (try split_ifs) <;> rfl
  · have hw : w = 0 := by simpa [truthyInt] using h
    subst hw
    rcases qoq with _ | q <;> rcases price with _ | p <;> rcases ncoid with _ | n <;>
      simp only [createParams, attachTruthyStr, attachTruthyInt] <;>
      (try split_ifs) <;>
      first
        | rfl
        | exact absurd rfl (by assumption)

theorem createParams_lookup_recvWindow_override (symbol : String) (side : EnumOrderSide)
    (_type : EnumOrderType) (ts : Int) (qty : String) (qoq price ncoid : Option String)
    (w : Int) (h0 : w ≠ 0) :
    (createParams symbol side _type ts qty qoq price ncoid (some w)).lookup "recvWindow" =
      some (toString w) := by
  have hw : (w == 0) = false := beq_eq_false_iff_ne.mpr h0
  rcases qoq with _ | q <;> rcases price with _ | p <;> rcases ncoid with _ | n <;>
    simp only [createParams, attachTruthyStr, attachTruthyInt, hw] <;>
    (try split_ifs) <;>
    first
      | rfl
      | (exact lookup_dictInsert_self _ "recvWindow" (toString w))
      | simp_all [lookup_dictInsert_self]

theorem createParams_lookup_price (symbol : String) (side : EnumOrderSide)
    (_type : EnumOrderType) (ts : Int) (qty : String) (qoq ncoid : Option String)
    (rw : Option Int) (p : String) (hne : p.isEmpty = false) :
    (createParams symbol side _type ts qty qoq (some p) ncoid rw).lookup "price" =
      some (replaceCommaWithDot p) := by
  rcases qoq with _ | q <;> rcases ncoid with _ | n <;> rcases rw with _ | w <;>
    simp only [createParams, attachTruthyStr, attachTruthyInt, hne] <;>
    (try split_ifs) <;>
    first
      | rfl
      | simp_all [lookup_dictInsert_ne, lookup_dictInsert_self, List.lookup]

theorem hasKey_attachTruthyStr_ne (l : List (String × String)) (k : String)
    (f : String → String) (o : Option String) (k' : String) (h : k' ≠ k) :
    hasKey (attachTruthyStr l k f o) k' = hasKey l k' := by
  rcases o with _ | s
  · rfl
  · simp only [attachTruthyStr]
    split_ifs
    · rfl
    · exact hasKey_dictInsert_ne l k (f s) k' h

theorem hasKey_attachTruthyStr_self (l : List (String × String)) (k : String)
    (f : String → String) (o : Option String) :
    hasKey (attachTruthyStr l k f o) k = (hasKey l k || truthyStr o) := by
  rcases o with _ | s
  · simp [attachTruthyStr, truthyStr]
  · simp only [attachTruthyStr, truthyStr]
    cases hs : s.isEmpty
    · simp [hs, hasKey_dictInsert_self]
    · simp [hs]

theorem hasKey_attachTruthyInt_ne (l : List (String × String)) (k : String)
    (o : Option Int) (k' : String) (h : k' ≠ k) :
    hasKey (attachTruthyInt l k o) k' = hasKey l k' := by
  rcases o with _ | i
  · rfl
  · simp only [attachTruthyInt]
    split_ifs
    · rfl
    · exact hasKey_dictInsert_ne l k (toString i) k' h

theorem hasKey_attachTruthyInt_self (l : List (String × String)) (k : String)
    (o : Option Int) :
    hasKey (attachTruthyInt l k o) k = (hasKey l k || truthyInt o) := by
  rcases o with _ | i
  · simp [attachTruthyInt, truthyInt]
  · simp only [attachTruthyInt, truthyInt]
    cases hi : (i == 0)
    · simp [hasKey_dictInsert_self]
    · simp

theorem createParams_presence (symbol : String) (side : EnumOrderSide)
    (_type : EnumOrderType) (ts : Int) (qty : String) (qoq price ncoid : Option String)
    (rw : Option Int) :
    hasKey (createParams symbol side _type ts qty qoq price ncoid rw) "quoteOrderQty" =
      truthyStr qoq ∧
    hasKey (createParams symbol side _type ts qty qoq price ncoid rw) "price" =
      truthyStr price ∧
    hasKey (createParams symbol side _type ts qty qoq price ncoid rw) "newClientOrderId" =
      truthyStr ncoid ∧
    hasKey (createParams symbol side _type ts qty qoq price ncoid rw) "recvWindow" = true := by
  refine ⟨?_, ?_, ?_, ?_⟩ <;> simp only [createParams]
  · rw [hasKey_attachTruthyInt_ne _ _ _ _ (by decide),
        hasKey_attachTruthyStr_ne _ _ _ _ _ (by decide),
        hasKey_attachTruthyStr_ne _ _ _ _ _ (by decide),
        hasKey_attachTruthyStr_self]
    exact Bool.false_or _
  · rw [hasKey_attachTruthyInt_ne _ _ _ _ (by decide),
        hasKey_attachTruthyStr_ne _ _ _ _ _ (by decide),
        hasKey_attachTruthyStr_self,
        hasKey_attachTruthyStr_ne _ _ _ _ _ (by decide)]
    exact Bool.false_or _
  · rw [hasKey_attachTruthyInt_ne _ _ _ _ (by decide),
        hasKey_attachTruthyStr_self,
        hasKey_attachTruthyStr_ne _ _ _ _ _ (by decide),
        hasKey_attachTruthyStr_ne _ _ _ _ _ (by decide)]
    exact Bool.false_or _
  · rw [hasKey_attachTruthyInt_self,
        hasKey_attachTruthyStr_ne _ _ _ _ _ (by decide),
        hasKey_attachTruthyStr_ne _ _ _ _ _ (by decide),
        hasKey_attachTruthyStr_ne _ _ _ _ _ (by decide)]
    exact Bool.true_or _

theorem createParams_no_signature (symbol : String) (side : EnumOrderSide)
    (_type : EnumOrderType) (ts : Int) (qty : String) (qoq price ncoid : Option String)
    (rw : Option Int) :
    hasKey (createParams symbol side _type ts qty qoq price ncoid rw) "signature" = false := by
  rcases qoq with _ | q <;> rcases price with _ | p <;> rcases ncoid with _ | n <;>
    rcases rw with _ | w <;>
    simp only [createParams, attachTruthyStr, attachTruthyInt] <;>
    (try split_ifs) <;> rfl

/-! ## Digest shape lemmas for the signer -/

theorem bytesToHexChars_length (bs : List Nat) :
    (bytesToHexChars bs).length = 2 * bs.length := by
  induction bs with
  | nil => rfl
  | cons b t ih =>
    simp only [bytesToHexChars, List.length_cons, ih]
    omega

theorem sha256_length (msg : List Nat) : (sha256 msg).length = 32 := by
  simp [sha256, stateBytes, wordBytes]

theorem generate_signature_length (secret msg : List Nat) :
    (generate_signature secret msg).length = 64 := by
  have h1 : (generate_signature secret msg).length =
      (bytesToHexChars (hmacSha256 secret msg)).length := rfl
  have h2 : (hmacSha256 secret msg).length = 32 := by
    simp only [hmacSha256, hmacCore, sha256_length]
  rw [h1, bytesToHexChars_length, h2]

/-! ## The claims -/

/-- C1: `cancel_all_open_orders_on_a_symbol` with more than 5 symbols returns
the descriptive client-side error list — no request, hence no signature and
no network call — while with 5 or fewer symbols it builds, signs, and sends
the DELETE against `/api/v3/openOrders`, the symbol parameter holding the
comma-joined list and the signature computed over the serialized body. -/
theorem cancel_all_symbol_cap (client : MexcClient) (symbols : List String) (ts : Int) :
    (symbols.length > 5 →
      client.cancel_all_open_orders_on_a_symbol symbols ts =
        CancelAllResult.clientError
          ["maximum number of symbols exceeded, only 5 are allowed"]) ∧
    (symbols.length ≤ 5 →
      ∃ r : SignedRequest,
        client.cancel_all_open_orders_on_a_symbol symbols ts = CancelAllResult.sent r ∧
        r.method = Method.DELETE ∧
        r.path = "/api/v3/openOrders" ∧
        r.params.lookup "symbol" = some (String.intercalate "," symbols) ∧
        r.signature = generate_signature (strToBytes client.api_secret)
          (strToBytes r.signedString)) := by
  constructor
  · intro h
    simp only [MexcClient.cancel_all_open_orders_on_a_symbol, if_pos h]
  · intro h
    have hle : ¬ symbols.length > 5 := by omega
    simp only [MexcClient.cancel_all_open_orders_on_a_symbol, if_neg hle]
    refine ⟨_, rfl, rfl, rfl, ?_, rfl⟩
    rw [lookup_dictInsert_ne _ _ _ _ (by decide)]
    exact lookup_dictInsert_self _ _ _

/-- Witness for C1: with 6 symbols the error value is returned, with 5 the
signed DELETE request is produced. -/
theorem cancel_all_symbol_cap_witness :
    ((MexcClient.mk "key" "secret").cancel_all_open_orders_on_a_symbol
        ["A", "B", "C", "D", "E", "F"] 1 =
      CancelAllResult.clientError
        ["maximum number of symbols exceeded, only 5 are allowed"]) ∧
    (∃ r : SignedRequest,
      (MexcClient.mk "key" "secret").cancel_all_open_orders_on_a_symbol
          ["A", "B", "C", "D", "E"] 1 = CancelAllResult.sent r ∧
      r.method = Method.DELETE ∧
      r.path = "/api/v3/openOrders" ∧
      r.params.lookup "symbol" = some "A,B,C,D,E" ∧
      r.signature = generate_signature (strToBytes "secret")
        (strToBytes r.signedString)) := by
  constructor
  · exact (cancel_all_symbol_cap (MexcClient.mk "key" "secret")
      ["A", "B", "C", "D", "E", "F"] 1).1 (by decide)
  · exact (cancel_all_symbol_cap (MexcClient.mk "key" "secret")
      ["A", "B", "C", "D", "E"] 1).2 (by decide)

/-- C2: for every request built by `_create`, the transmitted parameter
mapping is exactly the signed mapping with `signature` appended as the final
parameter, and the string the signature was computed over is precisely the
url-encoding of the transmitted mapping minus that final signature entry —
so the signed serialization and the transmitted serialization agree
byte-for-byte outside the signature field. -/
theorem create_sign_serialization (client : MexcClient) (url symbol : String)
    (side : EnumOrderSide) (_type : EnumOrderType) (ts : Int) (qty : String)
    (qoq price ncoid : Option String) (rw : Option Int) :
    ∃ signedParams : List (String × String),
      (client._create url symbol side _type ts qty qoq price ncoid rw).params =
        signedParams ++ [("signature",
          (client._create url symbol side _type ts qty qoq price ncoid rw).signature)] ∧
      (client._create url symbol side _type ts qty qoq price ncoid rw).signedString =
        urlencode signedParams ∧
      hasKey signedParams "signature" = false := by
  refine ⟨createParams symbol side _type ts qty qoq price ncoid rw, ?_, rfl,
    createParams_no_signature symbol side _type ts qty qoq price ncoid rw⟩
  exact dictInsert_fresh _ _ _
    (createParams_no_signature symbol side _type ts qty qoq price ncoid rw)

/-- C3 (amended): the `timestamp` parameter sent equals the caller-supplied
seconds multiplied by 1000; `recvWindow` equals 60000 whenever the supplied
`recv_window` is falsy in Python (absent or zero), and equals the override
whenever a nonzero override is supplied.  (The claim as frozen fails for the
override `0`, which Python's `if recv_window:` ignores.) -/
theorem create_timestamp_recvWindow (client : MexcClient) (url symbol : String)
    (side : EnumOrderSide) (_type : EnumOrderType) (ts : Int) (qty : String)
    (qoq price ncoid : Option String) (rw : Option Int) :
    (client._create url symbol side _type ts qty qoq price ncoid rw).params.lookup
        "timestamp" = some (toString (ts * 1000)) ∧
    (truthyInt rw = false →
      (client._create url symbol side _type ts qty qoq price ncoid rw).params.lookup
        "recvWindow" = some "60000") ∧
    (∀ w : Int, rw = some w → w ≠ 0 →
      (client._create url symbol side _type ts qty qoq price ncoid rw).params.lookup
        "recvWindow" = some (toString w)) := by
  simp only [MexcClient._create]
  refine ⟨?_, ?_, ?_⟩
  · rw [lookup_dictInsert_ne _ _ _ _ (by decide)]
    exact createParams_lookup_timestamp symbol side _type ts qty qoq price ncoid rw
  · intro h
    rw [lookup_dictInsert_ne _ _ _ _ (by decide)]
    exact createParams_lookup_recvWindow_default symbol side _type ts qty qoq price ncoid rw h
  · intro w hw h0
    subst hw
    rw [lookup_dictInsert_ne _ _ _ _ (by decide)]
    exact createParams_lookup_recvWindow_override symbol side _type ts qty qoq price ncoid w h0

/-- Witness for C3: a concrete order with timestamp 1700000000 s and a
nonzero override 30000 sends timestamp 1700000000000 ms and recvWindow
30000. -/
theorem create_timestamp_recvWindow_witness :
    ((MexcClient.mk "key" "secret")._create "/api/v3/order" "BTCUSDT" ⟨"BUY"⟩ ⟨"LIMIT"⟩
        1700000000 "1" none none none (some 30000)).params.lookup "timestamp" =
      some "1700000000000" ∧
    ((MexcClient.mk "key" "secret")._create "/api/v3/order" "BTCUSDT" ⟨"BUY"⟩ ⟨"LIMIT"⟩
        1700000000 "1" none none none (some 30000)).params.lookup "recvWindow" =
      some "30000" := by
  have h := create_timestamp_recvWindow (MexcClient.mk "key" "secret") "/api/v3/order"
    "BTCUSDT" ⟨"BUY"⟩ ⟨"LIMIT"⟩ 1700000000 "1" none none none (some 30000)
  exact ⟨h.1, h.2.2 30000 rfl (by decide)⟩

/-- Counterexample to C3 as frozen: supplying the override `recv_window = 0`
does not send recvWindow 0 — Python truthiness discards it and the default
60000 is sent. -/
theorem create_recvWindow_zero_counterexample :
    ((MexcClient.mk "key" "secret")._create "/api/v3/order" "BTCUSDT" ⟨"BUY"⟩ ⟨"LIMIT"⟩
        1700000000 "1" none none none (some 0)).params.lookup "recvWindow" =
      some "60000" ∧
    ¬ ((MexcClient.mk "key" "secret")._create "/api/v3/order" "BTCUSDT" ⟨"BUY"⟩ ⟨"LIMIT"⟩
        1700000000 "1" none none none (some 0)).params.lookup "recvWindow" =
      some "0" := by
  constructor
  · rfl
  · intro h
    exact absurd (Option.some.inj h) (by decide)

/-- C5: whenever a (truthy) price argument is supplied to `_create`, the
transmitted `price` parameter is the argument with every comma decimal
separator replaced by a period. -/
theorem create_price_comma_normalised (client : MexcClient) (url symbol : String)
    (side : EnumOrderSide) (_type : EnumOrderType) (ts : Int) (qty : String)
    (qoq ncoid : Option String) (rw : Option Int) (p : String)
    (hne : p.isEmpty = false) :
    (client._create url symbol side _type ts qty qoq (some p) ncoid rw).params.lookup
      "price" = some (replaceCommaWithDot p) := by
  simp only [MexcClient._create]
  rw [lookup_dictInsert_ne _ _ _ _ (by decide)]
  exact createParams_lookup_price symbol side _type ts qty qoq ncoid rw p hne

/-- Witness for C5: a limit order placed with price `"1,5"` transmits price
`"1.5"`. -/
theorem create_price_comma_normalised_witness :
    ((MexcClient.mk "key" "secret")._create "/api/v3/order" "BTCUSDT" ⟨"BUY"⟩ ⟨"LIMIT"⟩
        1700000000 "1" none (some "1,5") none none).params.lookup "price" =
      some "1.5" := by
  have h := create_price_comma_normalised (MexcClient.mk "key" "secret") "/api/v3/order"
    "BTCUSDT" ⟨"BUY"⟩ ⟨"LIMIT"⟩ 1700000000 "1" none none none "1,5" rfl
  exact h

/-- C6: `kline_data` issues its GET against `/api/v3/historicalTrades` — the
historical-trades path, not a dedicated klines path — with `symbol`, `limit`
and `interval` always present and `startTime`/`endTime` attached exactly
when positive. -/
theorem kline_data_uses_historicalTrades (client : MexcClient) (symbol : String)
    (interval : EnumKlineInterval) (st et l : Int) :
    (client.kline_data symbol interval st et l).method = Method.GET ∧
    (client.kline_data symbol interval st et l).path = "/api/v3/historicalTrades" ∧
    (client.kline_data symbol interval st et l).params =
      [("symbol", symbol), ("limit", toString l), ("interval", interval.value)] ++
      (if st > 0 then [("startTime", toString st)] else []) ++
      (if et > 0 then [("endTime", toString et)] else []) := by
  refine ⟨rfl, rfl, ?_⟩
  simp only [MexcClient.kline_data]
  split_ifs <;> rfl

/-- C7 (amended): `price`, `quote_order_quantity` and `new_client_order_id`
are attached to the parameter mapping exactly when the caller supplies a
truthy (non-`None`, nonempty) value, and are absent otherwise; `recvWindow`
however is always present in the transmitted mapping — with the default
60000 when no truthy override is supplied — rather than being attached only
on request.  (The claim as frozen fails for `recv_window`.) -/
theorem create_optional_param_presence (client : MexcClient) (url symbol : String)
    (side : EnumOrderSide) (_type : EnumOrderType) (ts : Int) (qty : String)
    (qoq price ncoid : Option String) (rw : Option Int) :
    hasKey ((client._create url symbol side _type ts qty qoq price ncoid rw).params)
      "quoteOrderQty" = truthyStr qoq ∧
    hasKey ((client._create url symbol side _type ts qty qoq price ncoid rw).params)
      "price" = truthyStr price ∧
    hasKey ((client._create url symbol side _type ts qty qoq price ncoid rw).params)
      "newClientOrderId" = truthyStr ncoid ∧
    hasKey ((client._create url symbol side _type ts qty qoq price ncoid rw).params)
      "recvWindow" = true := by
  simp only [MexcClient._create]
  have h := createParams_presence symbol side _type ts qty qoq price ncoid rw
  refine ⟨?_, ?_, ?_, ?_⟩ <;> rw [hasKey_dictInsert_ne _ _ _ _ (by decide)]
  exacts [h.1, h.2.1, h.2.2.1, h.2.2.2]

/-- Counterexample to C7 as frozen: in an order built with no `recv_window`
argument at all, the `recvWindow` parameter is nevertheless attached to the
transmitted mapping (with the default value 60000), contradicting "attached
only when the caller provides them, omitted otherwise". -/
theorem create_recvWindow_always_present_counterexample :
    hasKey ((MexcClient.mk "key" "secret")._create "/api/v3/order" "BTCUSDT" ⟨"BUY"⟩
        ⟨"LIMIT"⟩ 1700000000 "1" none none none none).params "recvWindow" = true ∧
    ((MexcClient.mk "key" "secret")._create "/api/v3/order" "BTCUSDT" ⟨"BUY"⟩
        ⟨"LIMIT"⟩ 1700000000 "1" none none none none).params.lookup "recvWindow" =
      some "60000" := ⟨rfl, rfl⟩

/-- C8 (amended): the signer is deterministic — it is a pure function of
the secret and message bytes, so byte-identical inputs always produce the
identical hex digest — and every digest is a 64-character hex string.  The
frozen claim's converse ("output differs whenever the secret or message
differs by even one byte") is false: HMAC zero-pads short keys, so a secret
extended by a zero byte signs identically (see the counterexample), and for
messages it would assert collision-freeness of SHA-256, which no finite
digest enjoys. -/
theorem generate_signature_deterministic (secret message : List Nat) :
    generate_signature secret message = generate_signature secret message ∧
    (generate_signature secret message).length = 64 :=
  ⟨rfl, generate_signature_length secret message⟩

/-- Counterexample to C8 as frozen: the secrets `[0x61]` (`"a"`) and
`[0x61, 0x00]` (`"a\x00"`) differ, yet — because HMAC zero-pads keys
shorter than the 64-byte block — they produce the identical signature over
the same message. -/
theorem generate_signature_key_padding_counterexample :
    ([97] : List Nat) ≠ [97, 0] ∧
    generate_signature [97] (strToBytes "symbol=BTCUSDT") =
      generate_signature [97, 0] (strToBytes "symbol=BTCUSDT") := by
  refine ⟨by decide, ?_⟩
  have h : hmacPadKey [97] = hmacPadKey [97, 0] := by decide
  simp only [generate_signature, hmacSha256, h]

/-- C9: `order_book_of_symbol` issues a GET against `/api/v3/depth` whose
`limit` parameter defaults to 100 when unspecified and is otherwise passed
through verbatim — for any integer, with no clamping into [100, 5000]. -/
theorem order_book_limit_passthrough (client : MexcClient) (symbol : String)
    (limit : Int) :
    (client.order_book_of_symbol symbol limit).params =
      [("symbol", symbol), ("limit", toString limit)] ∧
    (client.order_book_of_symbol symbol).params =
      [("symbol", symbol), ("limit", "100")] ∧
    (client.order_book_of_symbol symbol limit).method = Method.GET ∧
    (client.order_book_of_symbol symbol limit).path = "/api/v3/depth" :=
  ⟨rfl, rfl, rfl, rfl⟩

/-- C4 (code bug): looking up a balance for an asset absent from the
account does not produce a defined "not found" result — the filter comes
back empty and the `[0]` indexing raises an uncaught `IndexError`. -/
theorem load_balance_by_symbol_missing_asset_faults (resp : AccountResponse)
    (symbol : String) (bal : List Balance) (hok : resp.ok = true)
    (hbal : resp.fields.lookup "balances" = some bal)
    (habsent : ∀ b ∈ bal, b.asset ≠ symbol) :
    MexcClient.load_balance_by_symbol resp symbol = Except.error PyFault.indexError := by
  have hfilter : bal.filter (fun i => i.asset == symbol) = [] := by
    rw [List.filter_eq_nil_iff]
    intro b hb
    simpa using habsent b hb
  simp only [MexcClient.load_balance_by_symbol, MexcClient.load_balances,
    MexcClient._load_account_info, hok, if_true, hbal, hfilter]

/-- Witness for C4: an account holding only USDT faults with `IndexError`
when asked for its ETH balance. -/
theorem load_balance_by_symbol_missing_asset_faults_witness :
    MexcClient.load_balance_by_symbol
        ⟨true, [("balances", [⟨"USDT", "1", "0"⟩])]⟩ "ETH" =
      Except.error PyFault.indexError :=
  load_balance_by_symbol_missing_asset_faults _ "ETH" [⟨"USDT", "1", "0"⟩] rfl rfl
    (by decide)

/-- C10: `load_balances` yields the balances field only on a successful
account response; on an unsuccessful response `_load_account_info` returns
`None` and `load_balances` raises `AttributeError` reading `.get` off it,
instead of returning a defined error result. -/
theorem load_balances_faults_on_http_error (resp : AccountResponse) :
    (resp.ok = false →
      MexcClient._load_account_info resp = none ∧
      MexcClient.load_balances resp = Except.error PyFault.attributeError) ∧
    (resp.ok = true →
      MexcClient.load_balances resp = Except.ok (resp.fields.lookup "balances")) := by
  constructor
  · intro h
    constructor
    · simp [MexcClient._load_account_info, h]
    · simp [MexcClient.load_balances, MexcClient._load_account_info, h]
  · intro h
    simp [MexcClient.load_balances, MexcClient._load_account_info, h]

/-- Witness for C10: a failed response faults with `AttributeError`, a
successful one returns its balances list. -/
theorem load_balances_faults_on_http_error_witness :
    (MexcClient._load_account_info ⟨false, [("balances", [⟨"BTC", "2", "0"⟩])]⟩ = none ∧
     MexcClient.load_balances ⟨false, [("balances", [⟨"BTC", "2", "0"⟩])]⟩ =
       Except.error PyFault.attributeError) ∧
    MexcClient.load_balances ⟨true, [("balances", [⟨"BTC", "2", "0"⟩])]⟩ =
      Except.ok (some [⟨"BTC", "2", "0"⟩]) := by
  refine ⟨(load_balances_faults_on_http_error _).1 rfl, ?_⟩
  exact (load_balances_faults_on_http_error
    ⟨true, [("balances", [⟨"BTC", "2", "0"⟩])]⟩).2 rfl
